import Mathlib

/-!
# Verification of the create-new-app CLI generator

Shallow embedding of the option-resolution and file-assembly logic of the
create-new-app project generator, together with proofs about the properties
its specification states.

Sources embedded here:
* the main CLI entry point (option schema, `parseArgs`, `guidedProcess`,
  `processUsersCommand`, `createFiles`, `createSandbox`);
* the port validator module (`portValidator`);
* the file creators `dotEnv` and `packageJson`;
* the title/description resolution of the second, legacy entry point
  (`parseArgsTitleDescV1`).

External collaborators (the `command-line-args` library, the npm name
validator, the directory-exists probe, the connectivity probe, the terminal
prompts, and the random UUID generator) are modelled as explicit inputs:
the parsed flag record, the booleans `validForNewPackages` / `dirAvailable` /
`online`, the prompt answers, and the `secret` string parameter of `dotEnv`.
Console output and `process.exit` are modelled by the constructors of
`ParseResult` and by the boolean result of `portValidatorWarns`.
-/

/-- The record produced by the `command-line-args` library for the option
schema of the main entry point (`optionDefinitions`, part_000 lines 94-124).
Flags without a `defaultValue` in the schema (`version`, `help`, `express`,
`mongo`) are `undefined` when absent, which behaves as `false`; they are
modelled as `Bool`. `appName` is the positional option (empty when missing),
`api` defaults to `null` (`none`). The two port flags are the result of the
schema type functions `devServerPortType` / `apiPortType` below (defaults
8080 and 3000). -/
structure CliOptions where
  version : Bool
  help : Bool
  appName : String
  title : String
  redux : Bool
  router : Bool
  offline : Bool
  force : Bool
  sandbox : Bool
  author : String
  description : String
  email : String
  keywords : List String
  devServerPort : Int
  apiPort : Int
  api : Option String
  express : Bool
  mongo : Bool
deriving Repr, DecidableEq

/-- The resolved-options object flowing to the file creators: the parsed CLI
record plus the derived properties added by the spread in `parseArgs`
(part_000 lines 181-190) or by `guidedProcess` (lines 240-255). -/
structure ResolvedOptions where
  version : Bool
  help : Bool
  appName : String
  title : String
  redux : Bool
  router : Bool
  offline : Bool
  force : Bool
  sandbox : Bool
  author : String
  description : String
  email : String
  keywords : List String
  devServerPort : Int
  apiPort : Int
  api : Option String
  express : Bool
  mongo : Bool
  online : Bool
  server : Bool
  appDir : String
deriving Repr, DecidableEq

/-- Outcome of an option-resolution path.  The first four constructors stand
for the `process.exit()` calls after `showVersion`, `showHelp`, a failed
`checkDirExists`, and `badName`; `ok` carries the resolved options returned
to `letsGo`. -/
inductive ParseResult where
  | shownVersion
  | shownHelp
  | exitDirExists
  | exitBadName
  | ok (opts : ResolvedOptions)
deriving Repr, DecidableEq

/-- The options spread in `parseArgs` (part_000 lines 181-190):
`{...options, online, redux, router, offline: !online || offline,
api: api ? api.replace(/ /g, '') : null, server: express || mongo,
appDir: cwd + '/' + appName}`. -/
def resolveCliOptions (cwd : String) (online : Bool) (cli : CliOptions) :
    ResolvedOptions where
  version := cli.version
  help := cli.help
  appName := cli.appName
  title := cli.title
  redux := cli.redux
  router := cli.router
  offline := !online || cli.offline
  force := cli.force
  sandbox := cli.sandbox
  author := cli.author
  description := cli.description
  email := cli.email
  keywords := cli.keywords
  devServerPort := cli.devServerPort
  apiPort := cli.apiPort
  api := match cli.api with
    | some a => if a = "" then none else some (a.replace " " "")
    | none => none
  express := cli.express
  mongo := cli.mongo
  online := online
  server := cli.express || cli.mongo
  appDir := cwd ++ "/" ++ cli.appName

/-- `parseArgs` (part_000 lines 163-203).  `online` is the connectivity probe
result, `validForNewPackages` the verdict of the npm name validator on
`cli.appName`, and `dirAvailable` the truthiness of `checkDirExists`
(true when the target directory does not already exist).  The check order is
that of the source: version, help, directory existence, sandbox early return,
name validation. -/
def parseArgs (cwd : String) (online validForNewPackages dirAvailable : Bool)
    (cli : CliOptions) : ParseResult :=
  let options := resolveCliOptions cwd online cli
  if cli.version then ParseResult.shownVersion
  else if cli.help then ParseResult.shownHelp
  else if !dirAvailable then ParseResult.exitDirExists
  else if cli.sandbox then ParseResult.ok { options with sandbox := true }
  else if !validForNewPackages then ParseResult.exitBadName
  else ParseResult.ok options

/-- The object returned by `guidedProcess` (part_000 lines 240-255): the
schema defaults (title `''`, ports 8080/3000, `api` null, all boolean flags
false, empty metadata) overridden by the prompt answers and the calculated
properties.  `router` and `mongo` are short-circuited by the source
(`redux && await promptYN(...)`, `express && await promptYN(...)`). -/
def guidedOptions (cwd : String) (online : Bool) (appName : String)
    (ansRedux ansRouter ansExpress ansMongo : Bool) : ResolvedOptions where
  version := false
  help := false
  appName := appName
  title := ""
  redux := ansRedux
  router := ansRedux && ansRouter
  offline := !online
  force := false
  sandbox := false
  author := ""
  description := ""
  email := ""
  keywords := []
  devServerPort := 8080
  apiPort := 3000
  api := none
  express := ansExpress
  mongo := ansExpress && ansMongo
  online := online
  server := ansExpress || (ansExpress && ansMongo)
  appDir := cwd ++ "/" ++ appName

/-- `guidedProcess` (part_000 lines 206-256).  The directory-exists check and
the name validation run right after the app-name question, before the yes/no
prompts; the prompt answers are the four booleans. -/
def guidedProcess (cwd : String) (online validForNewPackages dirAvailable : Bool)
    (appName : String) (ansRedux ansRouter ansExpress ansMongo : Bool) :
    ParseResult :=
  if !dirAvailable then ParseResult.exitDirExists
  else if !validForNewPackages then ParseResult.exitBadName
  else ParseResult.ok
    (guidedOptions cwd online appName ansRedux ansRouter ansExpress ansMongo)

/-- `processUsersCommand` (part_000 lines 259-280).  The only state change is
the port-collision adjustment: `if ((express || mongo) && devServerPort ===
apiPort) options.devServerPort++`.  The offline console messages have no
effect on the options. -/
def processUsersCommand (options : ResolvedOptions) : ResolvedOptions :=
  if (options.express || options.mongo) && (options.devServerPort == options.apiPort)
  then { options with devServerPort := options.devServerPort + 1 }
  else options

/-- The flag-parsing path of `letsGo` (part_000 lines 146-147):
`options = processUsersCommand(parseArgs(online))`. -/
def cliPipeline (cwd : String) (online validForNewPackages dirAvailable : Bool)
    (cli : CliOptions) : ParseResult :=
  match parseArgs cwd online validForNewPackages dirAvailable cli with
  | ParseResult.ok opts => ParseResult.ok (processUsersCommand opts)
  | r => r

/-- Projection used to state concrete facts about a resolution outcome. -/
def okOptions : ParseResult → Option ResolvedOptions
  | ParseResult.ok o => some o
  | _ => none

/-- `portValidator` (part_002 lines 3-19).  The input is the coerced numeric
value of the flag token: `some n` when `+val` is an integer `n`
(`Number.isInteger(+val)`), `none` otherwise (NaN, a fractional or infinite
number).  The unused `type` argument of the source is dropped.  Returns the
resolved port. -/
def portValidator (val : Option Int) (defaultPort : Int) : Int :=
  match val with
  | none => defaultPort
  | some num => if num < 1 ∨ 65535 < num then defaultPort else num

/-- Whether `portValidator` prints one of its two yellow warnings (the
`console.log` calls in part_002 lines 7-9 and 13-15). -/
def portValidatorWarns (val : Option Int) : Bool :=
  match val with
  | none => true
  | some num => decide (num < 1 ∨ 65535 < num)

/-- Schema type function of the `devServerPort` flag (part_000 line 119):
`val => portValidator(val, 'dev', 8080)`. -/
def devServerPortType (val : Option Int) : Int :=
  portValidator val 8080

/-- Schema type function of the `apiPort` flag (part_000 line 120):
`val => portValidator(val, 'api', 3000)`. -/
def apiPortType (val : Option Int) : Int :=
  portValidator val 3000

/-- Title and description resolution of the legacy entry point
(part_001 lines 175-176): `title: title || appName` and
`description: description || title || titleCase(appName)`.  The `titleCase`
helper module is not part of the repository snapshot, so the title-cased app
name is taken as the parameter `titleCasedAppName`.  An empty string is the
only falsy value that can occur. -/
def parseArgsTitleDescV1 (titleCasedAppName appName title description : String) :
    String × String :=
  (if title = "" then appName else title,
   if description = "" then (if title = "" then titleCasedAppName else title)
   else description)

/-- One filesystem effect of `createFiles` / `createSandbox`.  `writeEnv`,
`writePackageJson` and `writeWebpackConfig` are the `fs.writeFileSync` calls
whose contents come from the corresponding file creators; `copyFile`,
`copyTree` and `makeDir` are `fs.copyFileSync`, `copyTree` and
`fs.mkdirSync`. -/
inductive FsAction where
  | writeEnv (dest : String)
  | writePackageJson (dest : String)
  | writeWebpackConfig (dest : String)
  | copyFile (src dest : String)
  | copyTree (src dest : String)
  | makeDir (dest : String)
deriving Repr, DecidableEq

/-- `createFiles` (part_000 lines 308-373) as the ordered list of filesystem
effects it performs for the given resolved options. -/
def createFiles (o : ResolvedOptions) : List FsAction :=
  [FsAction.writeEnv (o.appDir ++ "/.env"),
   FsAction.copyFile "files/gitignore.txt" (o.appDir ++ "/.gitignore"),
   FsAction.writePackageJson (o.appDir ++ "/package.json"),
   FsAction.copyFile "files/postcss.config.js" (o.appDir ++ "/postcss.config.js"),
   FsAction.copyFile "files/README.md" (o.appDir ++ "/README.md")]
  ++ (if o.server then
        [FsAction.copyFile ("files/server" ++ (if o.mongo then "-mongo" else "") ++ ".js")
          (o.appDir ++ "/server.js")]
      else [])
  ++ [FsAction.writeWebpackConfig (o.appDir ++ "/webpack.config.js")]
  ++ (if o.mongo then [FsAction.copyTree "./files/api" o.appDir] else [])
  ++ (if o.express && !o.mongo then
        [FsAction.makeDir (o.appDir ++ "/api"),
         FsAction.copyFile "files/api/home.js" (o.appDir ++ "/api/home.js")]
      else [])
  ++ [FsAction.copyTree "./files/dist" o.appDir,
      FsAction.copyTree "./files/src" o.appDir]
  ++ (if o.redux || o.router then
        [FsAction.copyFile "files/redux/entry.js" (o.appDir ++ "/src/entry.js"),
         FsAction.copyTree "files/redux/utils" (o.appDir ++ "/src")]
        ++ (if o.router then
              [FsAction.copyFile "files/redux/Redux1stApp.jsx"
                 (o.appDir ++ "/src/components/App.jsx"),
               FsAction.copyFile "files/redux/Redux1stExample.jsx"
                 (o.appDir ++ "/src/components/Example.jsx"),
               FsAction.copyFile "files/redux/NotFound.jsx"
                 (o.appDir ++ "/src/components/NotFound.jsx"),
               FsAction.copyFile "files/redux/routerStore.js"
                 (o.appDir ++ "/src/store.js"),
               FsAction.copyFile "files/redux/routesMap.js"
                 (o.appDir ++ "/src/routesMap.js")]
            else
              [FsAction.copyFile "files/redux/ReduxApp.jsx"
                 (o.appDir ++ "/src/components/App.jsx"),
               FsAction.copyFile "files/redux/ReduxExample.jsx"
                 (o.appDir ++ "/src/components/Example.jsx"),
               FsAction.copyFile "files/redux/store.js"
                 (o.appDir ++ "/src/store.js")])
      else [])

/-- Outcome of `createSandbox` (part_000 lines 283-291): with no app name it
only prints the usage hint; otherwise it creates the project directory and
copies the sandbox template tree. -/
inductive SandboxResult where
  | missingName
  | created (actions : List FsAction)
deriving Repr, DecidableEq

/-- `createSandbox` (part_000 lines 283-291). -/
def createSandbox (o : ResolvedOptions) : SandboxResult :=
  if o.appName = "" then SandboxResult.missingName
  else SandboxResult.created
    [FsAction.makeDir o.appDir, FsAction.copyTree "files/sandbox" o.appDir]

/-- The fields destructured by `dotEnv` (dotEnv.js line 5):
`{ appName, apiport, mongo, port, server }`.  These are the key names of the
legacy option schema; `port` is destructured but never used. -/
structure EnvAnswers where
  appName : String
  apiport : Int
  mongo : Bool
  port : Int
  server : Bool
deriving Repr, DecidableEq

/-- `dotEnv` (dotEnv.js lines 4-15).  The one impure input, the random
session secret produced by the micro-UUID generator on line 2, is the
explicit parameter `secret`.  The `mongo && line` entries of the source
array are `Option String` values and `.filter(Boolean)` is `filterMap id`
(every retained line is a nonempty string). -/
def dotEnv (secret : String) (a : EnvAnswers) : String :=
  let name := "appName=" ++ a.appName ++ "\n"
  let contents := String.intercalate "\n" (List.filterMap id
    [some ("PORT=" ++ toString a.apiport),
     if a.mongo then some ("mongoURI=mongodb://localhost:27017/" ++ a.appName) else none,
     if a.mongo then some ("mongoSession=" ++ a.appName ++ "Sessions") else none,
     if a.mongo then some ("secret=" ++ secret) else none,
     some name])
  if a.server then contents else name

/-- The fields destructured by `packageJson` (packageJson.js line 2):
`{ appName, server, description, author, email, keywords = [] }`. -/
structure PkgAnswers where
  appName : String
  server : Bool
  description : String
  author : String
  email : String
  keywords : List String
deriving Repr, DecidableEq

/-- The document assembled by `packageJson` before `JSON.stringify`:
the base fields of lines 3-10 plus the conditional `main` and `scripts`
fields of lines 12-28. -/
structure PackageJsonDoc where
  name : String
  version : String
  description : String
  keywords : List String
  author : String
  email : String
  main : Option String
  scripts : List (String × String)
deriving Repr, DecidableEq

/-- The scripts table of the server variant (packageJson.js lines 14-21). -/
def serverScripts : List (String × String) :=
  [("build", "cross-env NODE_ENV=production webpack --mode production --env.prod"),
   ("build:dev", "cross-env NODE_ENV=development webpack --mode development --env.dev"),
   ("local", "npm run server:api"),
   ("server:dev", "webpack-dev-server --mode development --env.dev --open --progress"),
   ("server:api", "nodemon server.js"),
   ("start", "cross-env NODE_ENV=development npm-run-all --parallel server:*")]

/-- The scripts table of the client-only variant (packageJson.js lines 23-26). -/
def clientScripts : List (String × String) :=
  [("build", "cross-env NODE_ENV=production webpack --mode production --env.prod"),
   ("start",
    "cross-env NODE_ENV=development webpack-dev-server --mode development --env.dev --open --progress")]

/-- `packageJson` (packageJson.js lines 1-31) at the level of the assembled
document; the final `JSON.stringify(packageJson, null, 2)` is a function of
this document. -/
def packageJson (a : PkgAnswers) : PackageJsonDoc where
  name := a.appName
  version := "0.1.0"
  description := a.description
  keywords := a.keywords
  author := a.author
  email := a.email
  main := if a.server then some "server.js" else none
  scripts := if a.server then serverScripts else clientScripts

/-- A parsed `cna myapp --router` invocation: every schema default, with only
the positional name and the router flag supplied. -/
def cliRouterNoRedux : CliOptions where
  version := false
  help := false
  appName := "myapp"
  title := ""
  redux := false
  router := true
  offline := false
  force := false
  sandbox := false
  author := ""
  description := ""
  email := ""
  keywords := []
  devServerPort := 8080
  apiPort := 3000
  api := none
  express := false
  mongo := false

/-- A parsed `cna myapp --mongo` invocation. -/
def cliMongoNoExpress : CliOptions :=
  { cliRouterNoRedux with
    router := false
    mongo := true }

/-- A parsed `cna myapp` invocation (name only, no flags). -/
def cliNameOnly : CliOptions :=
  { cliRouterNoRedux with router := false }

/-- A parsed `cna myapp --title "My Title"` invocation. -/
def cliTitleOnly : CliOptions :=
  { cliRouterNoRedux with
    router := false
    title := "My Title" }

/-- A parsed `cna "Bad Name" --sandbox` invocation: an app name that fails
the npm package-name rules, in sandbox mode. -/
def cliSandboxBadName : CliOptions :=
  { cliRouterNoRedux with
    router := false
    appName := "Bad Name"
    sandbox := true }

/-- Resolved options of an `--express` run whose two ports collide. -/
def samplePortClash : ResolvedOptions where
  version := false
  help := false
  appName := "myApp"
  title := ""
  redux := false
  router := false
  offline := false
  force := false
  sandbox := false
  author := ""
  description := ""
  email := ""
  keywords := []
  devServerPort := 3000
  apiPort := 3000
  api := none
  express := true
  mongo := false
  online := true
  server := true
  appDir := "/h/myApp"

/-- Resolved options of a redux-without-router run. -/
def sampleReduxOptions : ResolvedOptions :=
  { samplePortClash with
    express := false
    server := false
    redux := true
    devServerPort := 8080 }

/-- The renderer input of a plain client-only run (`server` false). -/
def envNoServer : EnvAnswers where
  appName := "myApp"
  apiport := 3000
  mongo := false
  port := 8080
  server := false

/-- The renderer input of a server run (`server` true). -/
def pkgServer : PkgAnswers where
  appName := "myApp"
  server := true
  description := ""
  author := ""
  email := ""
  keywords := []

/-- Associativity of string concatenation, used to factor renderer output
around the random secret. -/
theorem str_append_assoc (a b c : String) : a ++ b ++ c = a ++ (b ++ c) := by
  rcases a with ⟨a⟩; rcases b with ⟨b⟩; rcases c with ⟨c⟩
  show String.mk ((a ++ b) ++ c) = String.mk (a ++ (b ++ c))
  rw [List.append_assoc]

/-- The `parseArgs` success case returns the CLI flags unchanged together
with the derived `server` flag. -/
theorem parseArgs_ok_fields (cwd : String) (online valid dirOk : Bool)
    (cli : CliOptions) (o : ResolvedOptions)
    (h : parseArgs cwd online valid dirOk cli = ParseResult.ok o) :
    o.redux = cli.redux ∧ o.router = cli.router ∧ o.express = cli.express ∧
    o.mongo = cli.mongo ∧ o.server = (cli.express || cli.mongo) ∧
    o.title = cli.title ∧ o.description = cli.description ∧
    o.appName = cli.appName := by
  cases hv : cli.version <;> cases hh : cli.help <;> cases hd : dirOk <;>
    cases hs : cli.sandbox <;> cases hva : valid <;>
      simp [parseArgs, hv, hh, hd, hs, hva] at h <;> subst h <;>
      exact ⟨rfl, rfl, rfl, rfl, rfl, rfl, rfl, rfl⟩

/-- `processUsersCommand` changes nothing but the dev-server port. -/
theorem processUsersCommand_preserves (o : ResolvedOptions) :
    (processUsersCommand o).redux = o.redux ∧
    (processUsersCommand o).router = o.router ∧
    (processUsersCommand o).express = o.express ∧
    (processUsersCommand o).mongo = o.mongo ∧
    (processUsersCommand o).server = o.server ∧
    (processUsersCommand o).title = o.title ∧
    (processUsersCommand o).description = o.description ∧
    (processUsersCommand o).appName = o.appName := by
  unfold processUsersCommand
  split <;> exact ⟨rfl, rfl, rfl, rfl, rfl, rfl, rfl, rfl⟩

/-- A successful flag-parsing run keeps the addon flags of the CLI record and
derives `server` from them. -/
theorem cliPipeline_ok_fields (cwd : String) (online valid dirOk : Bool)
    (cli : CliOptions) (o : ResolvedOptions)
    (h : cliPipeline cwd online valid dirOk cli = ParseResult.ok o) :
    o.redux = cli.redux ∧ o.router = cli.router ∧ o.express = cli.express ∧
    o.mongo = cli.mongo ∧ o.server = (cli.express || cli.mongo) ∧
    o.title = cli.title ∧ o.description = cli.description := by
  unfold cliPipeline at h
  cases hp : parseArgs cwd online valid dirOk cli <;> rw [hp] at h <;> simp at h
  case ok opts =>
    obtain ⟨h1, h2, h3, h4, h5, h6, h7, h8⟩ := parseArgs_ok_fields _ _ _ _ _ _ hp
    obtain ⟨p1, p2, p3, p4, p5, p6, p7, p8⟩ := processUsersCommand_preserves opts
    subst h
    exact ⟨p1.trans h1, p2.trans h2, p3.trans h3, p4.trans h4, p5.trans h5,
      p6.trans h6, p7.trans h7⟩

/-- C3: for every parsed-options input, when `express || mongo` holds and the
dev-server port equals the API port, `processUsersCommand` resolves the final
dev-server port to exactly `apiPort + 1`; in every other case it returns the
options unchanged, so the adjustment happens exactly once. -/
theorem processUsersCommand_port_adjustment (o : ResolvedOptions) :
    ((o.express || o.mongo) = true → o.devServerPort = o.apiPort →
      processUsersCommand o = { o with devServerPort := o.apiPort + 1 }) ∧
    ((o.express || o.mongo) = false ∨ o.devServerPort ≠ o.apiPort →
      processUsersCommand o = o) := by
  constructor
  · intro hsm heq
    simp [processUsersCommand, hsm, heq]
  · intro h
    rcases h with h | h
    · simp [processUsersCommand, h]
    · simp [processUsersCommand, beq_eq_false_iff_ne.mpr h]

/-- Witness for C3 at a concrete `--express` run with both ports 3000. -/
theorem processUsersCommand_port_adjustment_witness :
    processUsersCommand samplePortClash =
      { samplePortClash with devServerPort := samplePortClash.apiPort + 1 } :=
  (processUsersCommand_port_adjustment samplePortClash).1 rfl rfl

/-- C5: for either port flag, an input whose coerced value is an integer in
`[1, 65535]` resolves to that value with no warning; any other input (not an
integer, or out of range) resolves to the flag's documented default — 8080
for `devServerPort`, 3000 for `apiPort` — and emits a warning. -/
theorem portValidator_spec (val : Option Int) :
    (∀ n : Int, val = some n → 1 ≤ n → n ≤ 65535 →
      devServerPortType val = n ∧ apiPortType val = n ∧
      portValidatorWarns val = false) ∧
    (val = none ∨ (∃ n : Int, val = some n ∧ (n < 1 ∨ 65535 < n)) →
      devServerPortType val = 8080 ∧ apiPortType val = 3000 ∧
      portValidatorWarns val = true) := by
  constructor
  · rintro n rfl h1 h2
    refine ⟨?_, ?_, ?_⟩ <;>
      simp [devServerPortType, apiPortType, portValidator, portValidatorWarns] <;>
      omega
  · rintro (rfl | ⟨n, rfl, hn⟩)
    · exact ⟨rfl, rfl, rfl⟩
    · refine ⟨?_, ?_, ?_⟩ <;>
        simp [devServerPortType, apiPortType, portValidator, portValidatorWarns] <;>
        omega

/-- Witness for C5: the in-range token 4000 resolves to itself, a
non-integer token falls back to each flag's default with a warning. -/
theorem portValidator_spec_witness :
    devServerPortType (some 4000) = 4000 ∧ apiPortType none = 3000 ∧
    portValidatorWarns none = true :=
  ⟨((portValidator_spec (some 4000)).1 4000 rfl (by decide) (by decide)).1,
   ((portValidator_spec none).2 (Or.inl rfl)).2.1,
   ((portValidator_spec none).2 (Or.inl rfl)).2.2⟩

/-- C10: with the sandbox flag set, `parseArgs` is independent of the
package-name validation verdict and never exits through `badName` — the
sandbox early return happens before the validity check. -/
theorem parseArgs_sandbox_before_name_check (cwd : String)
    (online dirOk : Bool) (cli : CliOptions) (hs : cli.sandbox = true) :
    (∀ v₁ v₂ : Bool, parseArgs cwd online v₁ dirOk cli =
      parseArgs cwd online v₂ dirOk cli) ∧
    (∀ v : Bool, parseArgs cwd online v dirOk cli ≠ ParseResult.exitBadName) := by
  constructor
  · intro v₁ v₂
    cases hv : cli.version <;> cases hh : cli.help <;> cases hd : dirOk <;>
      simp [parseArgs, hv, hh, hd, hs]
  · intro v
    cases hv : cli.version <;> cases hh : cli.help <;> cases hd : dirOk <;>
      simp [parseArgs, hv, hh, hd, hs]

/-- Witness for C10: a sandbox run whose app name fails the npm rules is
still not rejected by name validation. -/
theorem parseArgs_sandbox_before_name_check_witness :
    parseArgs "/h" true false true cliSandboxBadName ≠ ParseResult.exitBadName :=
  (parseArgs_sandbox_before_name_check "/h" true true cliSandboxBadName rfl).2 false

/-- C8: `packageJson` produces a document whose name is the app name and
whose version is the fixed string 0.1.0; the scripts table is a function of
the `server` flag alone — the server variant adds the `server.js` main entry
and the extra run scripts, the client variant has exactly the build and
start scripts and no main field. -/
theorem packageJson_spec (a : PkgAnswers) :
    (packageJson a).name = a.appName ∧
    (packageJson a).version = "0.1.0" ∧
    (a.server = true → (packageJson a).main = some "server.js" ∧
      (packageJson a).scripts = serverScripts ∧
      serverScripts.map Prod.fst =
        ["build", "build:dev", "local", "server:dev", "server:api", "start"]) ∧
    (a.server = false → (packageJson a).main = none ∧
      (packageJson a).scripts = clientScripts ∧
      clientScripts.map Prod.fst = ["build", "start"]) ∧
    (∀ b : PkgAnswers, a.server = b.server →
      (packageJson a).scripts = (packageJson b).scripts) := by
  refine ⟨rfl, rfl, ?_, ?_, ?_⟩
  · intro h
    exact ⟨by simp [packageJson, h], by simp [packageJson, h], rfl⟩
  · intro h
    exact ⟨by simp [packageJson, h], by simp [packageJson, h], rfl⟩
  · intro b hb
    simp [packageJson, hb]

/-- Witness for C8 at a concrete server run. -/
theorem packageJson_spec_witness :
    (packageJson pkgServer).main = some "server.js" ∧
    (packageJson pkgServer).scripts = serverScripts ∧
    serverScripts.map Prod.fst =
      ["build", "build:dev", "local", "server:dev", "server:api", "start"] :=
  (packageJson_spec pkgServer).2.2.1 rfl

/-- C1 counterexample: the flag-parsing path accepts `cna myapp --router`
(a valid name, no existing directory) and produces final resolved options
with `router` true and `redux` false, so the claimed invariant fails for
`parseArgs`. -/
theorem cliPipeline_router_without_redux :
    (okOptions (cliPipeline "/h" true true true cliRouterNoRedux)).map
      ResolvedOptions.router = some true ∧
    (okOptions (cliPipeline "/h" true true true cliRouterNoRedux)).map
      ResolvedOptions.redux = some false := by
  constructor <;> rfl

/-- C1 (amended): every resolved options produced by the Interactive Wizard
satisfies router implies redux, and the reverse implication does not hold;
the Argument Resolver instead copies both flags unchanged from the CLI, so
a flag-parsing run can end with router true and redux false. -/
theorem router_requires_redux_amended :
    (∀ (cwd : String) (online valid dirOk : Bool) (appName : String)
      (aR aRt aE aM : Bool) (o : ResolvedOptions),
      guidedProcess cwd online valid dirOk appName aR aRt aE aM =
        ParseResult.ok o →
      o.router = true → o.redux = true) ∧
    (∀ (cwd : String) (online valid dirOk : Bool) (cli : CliOptions)
      (o : ResolvedOptions),
      cliPipeline cwd online valid dirOk cli = ParseResult.ok o →
      o.router = cli.router ∧ o.redux = cli.redux) ∧
    (∃ o : ResolvedOptions,
      guidedProcess "/h" true true true "myapp" true false false false =
        ParseResult.ok o ∧ o.redux = true ∧ o.router = false) := by
  refine ⟨?_, ?_, ?_⟩
  · intro cwd online valid dirOk appName aR aRt aE aM o h hr
    cases hd : dirOk <;> cases hv : valid <;> simp [guidedProcess, hd, hv] at h
    subst h
    simp only [guidedOptions, Bool.and_eq_true] at hr
    simp only [guidedOptions]
    exact hr.1
  · intro cwd online valid dirOk cli o h
    obtain ⟨h1, h2, _⟩ := cliPipeline_ok_fields _ _ _ _ _ _ h
    exact ⟨h2, h1⟩
  · exact ⟨guidedOptions "/h" true "myapp" true false false false, rfl, rfl, rfl⟩

/-- Witness for C1 (amended): a wizard run answering yes to redux and yes to
router ends with redux true. -/
theorem router_requires_redux_amended_witness :
    (guidedOptions "/h" true "myapp" true true false false).redux = true :=
  router_requires_redux_amended.1 "/h" true true true "myapp" true true false
    false (guidedOptions "/h" true "myapp" true true false false) rfl rfl

/-- C2 counterexample: the flag-parsing path accepts `cna myapp --mongo` and
produces final resolved options with `mongo` true and `express` false, so
mongo does not imply express there (the derived `server` flag, unlike
`express`, is true). -/
theorem cliPipeline_mongo_without_express :
    (okOptions (cliPipeline "/h" true true true cliMongoNoExpress)).map
      ResolvedOptions.mongo = some true ∧
    (okOptions (cliPipeline "/h" true true true cliMongoNoExpress)).map
      ResolvedOptions.express = some false ∧
    (okOptions (cliPipeline "/h" true true true cliMongoNoExpress)).map
      ResolvedOptions.server = some true := by
  refine ⟨rfl, rfl, rfl⟩

/-- C2 (amended): mongo implies express in every resolved options produced
by the Interactive Wizard, and mongo implies the derived `server` flag on
both paths; the Argument Resolver copies mongo and express unchanged from
the CLI, so a flag-parsing run can end with mongo true and express false. -/
theorem mongo_requires_express_amended :
    (∀ (cwd : String) (online valid dirOk : Bool) (appName : String)
      (aR aRt aE aM : Bool) (o : ResolvedOptions),
      guidedProcess cwd online valid dirOk appName aR aRt aE aM =
        ParseResult.ok o →
      (o.mongo = true → o.express = true) ∧
      (o.mongo = true → o.server = true)) ∧
    (∀ (cwd : String) (online valid dirOk : Bool) (cli : CliOptions)
      (o : ResolvedOptions),
      cliPipeline cwd online valid dirOk cli = ParseResult.ok o →
      (o.mongo = true → o.server = true) ∧
      o.mongo = cli.mongo ∧ o.express = cli.express) := by
  constructor
  · intro cwd online valid dirOk appName aR aRt aE aM o h
    cases hd : dirOk <;> cases hv : valid <;> simp [guidedProcess, hd, hv] at h
    subst h
    constructor
    · intro hm
      simp only [guidedOptions, Bool.and_eq_true] at hm
      simp only [guidedOptions]
      exact hm.1
    · intro hm
      simp only [guidedOptions, Bool.and_eq_true] at hm
      simp only [guidedOptions]
      simp [hm.1]
  · intro cwd online valid dirOk cli o h
    obtain ⟨_, _, h3, h4, h5, _⟩ := cliPipeline_ok_fields _ _ _ _ _ _ h
    refine ⟨?_, h4, h3⟩
    intro hm
    rw [h5]
    rw [h4] at hm
    simp [hm]

/-- Witness for C2 (amended): a wizard run answering yes to express and yes
to mongo ends with express true and server true. -/
theorem mongo_requires_express_amended_witness :
    (guidedOptions "/h" true "myapp" false false true true).express = true ∧
    (guidedOptions "/h" true "myapp" false false true true).server = true :=
  ⟨(mongo_requires_express_amended.1 "/h" true true true "myapp" false false
      true true (guidedOptions "/h" true "myapp" false false true true) rfl).1 rfl,
   (mongo_requires_express_amended.1 "/h" true true true "myapp" false false
      true true (guidedOptions "/h" true "myapp" false false true true) rfl).2 rfl⟩

/-- C6 counterexample: in the main entry point, `cna myapp` resolves title to
the empty string, not to the app name `myapp`, and `cna myapp --title "My
Title"` resolves description to the empty string, not to the title. -/
theorem parseArgs_title_description_defaults_missing :
    (okOptions (parseArgs "/h" true true true cliNameOnly)).map
      ResolvedOptions.title = some "" ∧
    (okOptions (parseArgs "/h" true true true cliTitleOnly)).map
      ResolvedOptions.description = some "" ∧
    cliNameOnly.appName = "myapp" ∧ cliTitleOnly.title = "My Title" ∧
    ("" : String) ≠ "myapp" ∧ ("" : String) ≠ "My Title" :=
  ⟨rfl, rfl, rfl, rfl, by decide, by decide⟩

/-- C6 (amended): the main entry point's Argument Resolver passes title and
description through unchanged (the schema default, the empty string, when not
supplied).  The fallbacks exist only in the legacy variant's resolver, where
an unsupplied title becomes the app name and an unsupplied description
becomes the supplied title when there is one and the title-cased app name
otherwise. -/
theorem title_description_amended :
    (∀ (cwd : String) (online valid dirOk : Bool) (cli : CliOptions)
      (o : ResolvedOptions),
      parseArgs cwd online valid dirOk cli = ParseResult.ok o →
      o.title = cli.title ∧ o.description = cli.description) ∧
    (∀ tc appName dsc : String,
      parseArgsTitleDescV1 tc appName "" dsc =
        (appName, if dsc = "" then tc else dsc)) ∧
    (∀ tc appName t dsc : String, t ≠ "" →
      parseArgsTitleDescV1 tc appName t dsc =
        (t, if dsc = "" then t else dsc)) := by
  refine ⟨?_, ?_, ?_⟩
  · intro cwd online valid dirOk cli o h
    obtain ⟨_, _, _, _, _, h6, h7, _⟩ := parseArgs_ok_fields _ _ _ _ _ _ h
    exact ⟨h6, h7⟩
  · intro tc appName dsc
    simp [parseArgsTitleDescV1]
  · intro tc appName t dsc ht
    simp [parseArgsTitleDescV1, ht]

/-- Witness for C6 (amended) at the concrete `cna myapp` run. -/
theorem title_description_amended_witness :
    (resolveCliOptions "/h" true cliNameOnly).title = cliNameOnly.title ∧
    (resolveCliOptions "/h" true cliNameOnly).description =
      cliNameOnly.description :=
  title_description_amended.1 "/h" true true true cliNameOnly
    (resolveCliOptions "/h" true cliNameOnly) rfl

/-- C7: with redux on and router off, the file assembler copies the
non-router app shell, example component and store, and never any router
variant; with router on, it copies the router-aware app shell, example
component, not-found component, store and route map, and never the
non-router variants. -/
theorem createFiles_variant_selection (o : ResolvedOptions) :
    (o.redux = true → o.router = false →
      FsAction.copyFile "files/redux/ReduxApp.jsx"
        (o.appDir ++ "/src/components/App.jsx") ∈ createFiles o ∧
      FsAction.copyFile "files/redux/ReduxExample.jsx"
        (o.appDir ++ "/src/components/Example.jsx") ∈ createFiles o ∧
      FsAction.copyFile "files/redux/store.js"
        (o.appDir ++ "/src/store.js") ∈ createFiles o ∧
      (∀ d, FsAction.copyFile "files/redux/Redux1stApp.jsx" d ∉ createFiles o) ∧
      (∀ d, FsAction.copyFile "files/redux/Redux1stExample.jsx" d ∉ createFiles o) ∧
      (∀ d, FsAction.copyFile "files/redux/NotFound.jsx" d ∉ createFiles o) ∧
      (∀ d, FsAction.copyFile "files/redux/routerStore.js" d ∉ createFiles o) ∧
      (∀ d, FsAction.copyFile "files/redux/routesMap.js" d ∉ createFiles o)) ∧
    (o.router = true →
      FsAction.copyFile "files/redux/Redux1stApp.jsx"
        (o.appDir ++ "/src/components/App.jsx") ∈ createFiles o ∧
      FsAction.copyFile "files/redux/Redux1stExample.jsx"
        (o.appDir ++ "/src/components/Example.jsx") ∈ createFiles o ∧
      FsAction.copyFile "files/redux/NotFound.jsx"
        (o.appDir ++ "/src/components/NotFound.jsx") ∈ createFiles o ∧
      FsAction.copyFile "files/redux/routerStore.js"
        (o.appDir ++ "/src/store.js") ∈ createFiles o ∧
      FsAction.copyFile "files/redux/routesMap.js"
        (o.appDir ++ "/src/routesMap.js") ∈ createFiles o ∧
      (∀ d, FsAction.copyFile "files/redux/ReduxApp.jsx" d ∉ createFiles o) ∧
      (∀ d, FsAction.copyFile "files/redux/ReduxExample.jsx" d ∉ createFiles o) ∧
      (∀ d, FsAction.copyFile "files/redux/store.js" d ∉ createFiles o)) := by
  constructor
  · intro hx hr
    cases hs : o.server <;> cases hm : o.mongo <;> cases he : o.express <;>
      simp [createFiles, hx, hr, hs, hm, he]
  · intro hr
    cases hx : o.redux <;> cases hs : o.server <;> cases hm : o.mongo <;>
      cases he : o.express <;> simp [createFiles, hx, hr, hs, hm, he]

/-- Witness for C7: a concrete redux-without-router run copies the
non-router app shell. -/
theorem createFiles_variant_selection_witness :
    FsAction.copyFile "files/redux/ReduxApp.jsx"
      (sampleReduxOptions.appDir ++ "/src/components/App.jsx") ∈
      createFiles sampleReduxOptions :=
  ((createFiles_variant_selection sampleReduxOptions).1 rfl rfl).1

/-- C4 counterexample: on a plain run with no server addon, the rendered
environment file is exactly the appName line — it contains no PORT line and
not even the digits of the resolved port 3000, so the port is not always
included. -/
theorem dotEnv_no_port_when_no_server :
    dotEnv "cafe1234" envNoServer = "appName=myApp\n" ∧
    ¬ List.IsInfix "PORT=".data "appName=myApp\n".data ∧
    ¬ List.IsInfix "3000".data "appName=myApp\n".data ∧
    envNoServer.apiport = 3000 :=
  ⟨rfl, by decide, by decide, rfl⟩

/-- C4 (amended): the environment renderer always emits the appName line;
only when `server` is true does it also emit the PORT line, plus — exactly
when mongo is set — the database connection string, the session name and the
random session secret; when `server` is false the whole output is the
appName line alone. -/
theorem dotEnv_contents (secret : String) (a : EnvAnswers) :
    dotEnv secret a =
      if a.server then
        String.intercalate "\n"
          (["PORT=" ++ toString a.apiport]
            ++ (if a.mongo then
                  ["mongoURI=mongodb://localhost:27017/" ++ a.appName,
                   "mongoSession=" ++ a.appName ++ "Sessions",
                   "secret=" ++ secret]
                else [])
            ++ ["appName=" ++ a.appName ++ "\n"])
      else "appName=" ++ a.appName ++ "\n" := by
  rcases a with ⟨an, ap, m, pt, sv⟩
  cases m <;> cases sv <;> rfl

/-- C9: the manifest renderer is a pure function of the resolved options,
and the environment renderer depends on the random secret only inside the
secret line: when mongo and server are both set the output factors as a
fixed prefix, then `secret=` and the fresh secret, then a fixed suffix; in
every other case two invocations with different secrets coincide byte for
byte. -/
theorem renderers_deterministic (a : EnvAnswers) (p : PkgAnswers)
    (s₁ s₂ : String) :
    packageJson p = packageJson p ∧
    (a.mongo = true → a.server = true →
      ∃ pre post : String, ∀ s : String,
        dotEnv s a = pre ++ ("secret=" ++ s) ++ post) ∧
    (¬(a.mongo = true ∧ a.server = true) → dotEnv s₁ a = dotEnv s₂ a) := by
  refine ⟨rfl, ?_, ?_⟩
  · intro hm hs
    rcases a with ⟨an, ap, m, pt, sv⟩
    obtain rfl : m = true := hm
    obtain rfl : sv = true := hs
    refine ⟨("PORT=" ++ toString ap) ++ "\n" ++
        ("mongoURI=mongodb://localhost:27017/" ++ an) ++ "\n" ++
        ("mongoSession=" ++ an ++ "Sessions") ++ "\n",
      "\n" ++ ("appName=" ++ an ++ "\n"), ?_⟩
    intro s
    have h5 : dotEnv s ⟨an, ap, true, pt, true⟩ =
        ("PORT=" ++ toString ap) ++ "\n" ++
        ("mongoURI=mongodb://localhost:27017/" ++ an) ++ "\n" ++
        ("mongoSession=" ++ an ++ "Sessions") ++ "\n" ++
        ("secret=" ++ s) ++ "\n" ++ ("appName=" ++ an ++ "\n") := rfl
    rw [h5]
    simp only [str_append_assoc]
  · intro h
    rcases a with ⟨an, ap, m, pt, sv⟩
    cases m <;> cases sv
    · rfl
    · rfl
    · rfl
    · exact absurd ⟨rfl, rfl⟩ h

/-- Witness for C9: without mongo the rendered environment file is
independent of the generated secret. -/
theorem renderers_deterministic_witness :
    dotEnv "x" envNoServer = dotEnv "y" envNoServer :=
  (renderers_deterministic envNoServer pkgServer "x" "y").2.2 (by decide)
